import Mathlib

/-!
Shallow embedding of the PistonDevelopers/input core (src/lib.rs, src/keyboard.rs,
src/mouse.rs) and proofs of properties of its key code mapping and event model.

Machine integers are modelled as Nat (u64) and Int (i32, i64); the f32/f64 payload
fields of mouse events are modelled as rationals, on which comparison with zero is
exact, and the f64-to-f32 narrowing cast of get_element_value is the identity (it is
exact on every value whose mantissa fits in 24 bits, in particular on all the values
appearing in the stated properties, which perform no arithmetic on the fields).
-/

set_option maxRecDepth 16384

namespace Input

/-- The Key enumeration of src/keyboard.rs (lines 96-333): one constructor per named
key variant, in source order. The numeric discriminants live in Key.code. -/
inductive Key where
  | Unknown
  | Backspace
  | Tab
  | Return
  | Escape
  | Space
  | Exclaim
  | Quotedbl
  | Hash
  | Dollar
  | Percent
  | Ampersand
  | Quote
  | LeftParen
  | RightParen
  | Asterisk
  | Plus
  | Comma
  | Minus
  | Period
  | Slash
  | D0
  | D1
  | D2
  | D3
  | D4
  | D5
  | D6
  | D7
  | D8
  | D9
  | Colon
  | Semicolon
  | Less
  | Equals
  | Greater
  | Question
  | At
  | LeftBracket
  | Backslash
  | RightBracket
  | Caret
  | Underscore
  | Backquote
  | A
  | B
  | C
  | D
  | E
  | F
  | G
  | H
  | I
  | J
  | K
  | L
  | M
  | N
  | O
  | P
  | Q
  | R
  | S
  | T
  | U
  | V
  | W
  | X
  | Y
  | Z
  | Delete
  | CapsLock
  | F1
  | F2
  | F3
  | F4
  | F5
  | F6
  | F7
  | F8
  | F9
  | F10
  | F11
  | F12
  | PrintScreen
  | ScrollLock
  | Pause
  | Insert
  | Home
  | PageUp
  | End
  | PageDown
  | Right
  | Left
  | Down
  | Up
  | NumLockClear
  | NumPadDivide
  | NumPadMultiply
  | NumPadMinus
  | NumPadPlus
  | NumPadEnter
  | NumPad1
  | NumPad2
  | NumPad3
  | NumPad4
  | NumPad5
  | NumPad6
  | NumPad7
  | NumPad8
  | NumPad9
  | NumPad0
  | NumPadPeriod
  | Application
  | Power
  | NumPadEquals
  | F13
  | F14
  | F15
  | F16
  | F17
  | F18
  | F19
  | F20
  | F21
  | F22
  | F23
  | F24
  | Execute
  | Help
  | Menu
  | Select
  | Stop
  | Again
  | Undo
  | Cut
  | Copy
  | Paste
  | Find
  | Mute
  | VolumeUp
  | VolumeDown
  | NumPadComma
  | NumPadEqualsAS400
  | AltErase
  | Sysreq
  | Cancel
  | Clear
  | Prior
  | Return2
  | Separator
  | Out
  | Oper
  | ClearAgain
  | CrSel
  | ExSel
  | NumPad00
  | NumPad000
  | ThousandsSeparator
  | DecimalSeparator
  | CurrencyUnit
  | CurrencySubUnit
  | NumPadLeftParen
  | NumPadRightParen
  | NumPadLeftBrace
  | NumPadRightBrace
  | NumPadTab
  | NumPadBackspace
  | NumPadA
  | NumPadB
  | NumPadC
  | NumPadD
  | NumPadE
  | NumPadF
  | NumPadXor
  | NumPadPower
  | NumPadPercent
  | NumPadLess
  | NumPadGreater
  | NumPadAmpersand
  | NumPadDblAmpersand
  | NumPadVerticalBar
  | NumPadDblVerticalBar
  | NumPadColon
  | NumPadHash
  | NumPadSpace
  | NumPadAt
  | NumPadExclam
  | NumPadMemStore
  | NumPadMemRecall
  | NumPadMemClear
  | NumPadMemAdd
  | NumPadMemSubtract
  | NumPadMemMultiply
  | NumPadMemDivide
  | NumPadPlusMinus
  | NumPadClear
  | NumPadClearEntry
  | NumPadBinary
  | NumPadOctal
  | NumPadDecimal
  | NumPadHexadecimal
  | LCtrl
  | LShift
  | LAlt
  | LGui
  | RCtrl
  | RShift
  | RAlt
  | RGui
  | Mode
  | AudioNext
  | AudioPrev
  | AudioStop
  | AudioPlay
  | AudioMute
  | MediaSelect
  | Www
  | Mail
  | Calculator
  | Computer
  | AcSearch
  | AcHome
  | AcBack
  | AcForward
  | AcStop
  | AcRefresh
  | AcBookmarks
  | BrightnessDown
  | BrightnessUp
  | DisplaySwitch
  | KbdIllumToggle
  | KbdIllumDown
  | KbdIllumUp
  | Eject
  | Sleep
deriving DecidableEq, Repr

/-- Key::code (src/keyboard.rs lines 358-364): `*self as i32`, the fixed numeric
discriminant of each variant. Every discriminant is nonnegative and below 2^31, so
the i32 cast is exact and is modelled as the discriminant itself. -/
def Key.code : Key → Int
  | .Unknown => 0
  | .Backspace => 8
  | .Tab => 9
  | .Return => 13
  | .Escape => 27
  | .Space => 32
  | .Exclaim => 33
  | .Quotedbl => 34
  | .Hash => 35
  | .Dollar => 36
  | .Percent => 37
  | .Ampersand => 38
  | .Quote => 39
  | .LeftParen => 40
  | .RightParen => 41
  | .Asterisk => 42
  | .Plus => 43
  | .Comma => 44
  | .Minus => 45
  | .Period => 46
  | .Slash => 47
  | .D0 => 48
  | .D1 => 49
  | .D2 => 50
  | .D3 => 51
  | .D4 => 52
  | .D5 => 53
  | .D6 => 54
  | .D7 => 55
  | .D8 => 56
  | .D9 => 57
  | .Colon => 58
  | .Semicolon => 59
  | .Less => 60
  | .Equals => 61
  | .Greater => 62
  | .Question => 63
  | .At => 64
  | .LeftBracket => 91
  | .Backslash => 92
  | .RightBracket => 93
  | .Caret => 94
  | .Underscore => 95
  | .Backquote => 96
  | .A => 97
  | .B => 98
  | .C => 99
  | .D => 100
  | .E => 101
  | .F => 102
  | .G => 103
  | .H => 104
  | .I => 105
  | .J => 106
  | .K => 107
  | .L => 108
  | .M => 109
  | .N => 110
  | .O => 111
  | .P => 112
  | .Q => 113
  | .R => 114
  | .S => 115
  | .T => 116
  | .U => 117
  | .V => 118
  | .W => 119
  | .X => 120
  | .Y => 121
  | .Z => 122
  | .Delete => 127
  | .CapsLock => 1073741881
  | .F1 => 1073741882
  | .F2 => 1073741883
  | .F3 => 1073741884
  | .F4 => 1073741885
  | .F5 => 1073741886
  | .F6 => 1073741887
  | .F7 => 1073741888
  | .F8 => 1073741889
  | .F9 => 1073741890
  | .F10 => 1073741891
  | .F11 => 1073741892
  | .F12 => 1073741893
  | .PrintScreen => 1073741894
  | .ScrollLock => 1073741895
  | .Pause => 1073741896
  | .Insert => 1073741897
  | .Home => 1073741898
  | .PageUp => 1073741899
  | .End => 1073741901
  | .PageDown => 1073741902
  | .Right => 1073741903
  | .Left => 1073741904
  | .Down => 1073741905
  | .Up => 1073741906
  | .NumLockClear => 1073741907
  | .NumPadDivide => 1073741908
  | .NumPadMultiply => 1073741909
  | .NumPadMinus => 1073741910
  | .NumPadPlus => 1073741911
  | .NumPadEnter => 1073741912
  | .NumPad1 => 1073741913
  | .NumPad2 => 1073741914
  | .NumPad3 => 1073741915
  | .NumPad4 => 1073741916
  | .NumPad5 => 1073741917
  | .NumPad6 => 1073741918
  | .NumPad7 => 1073741919
  | .NumPad8 => 1073741920
  | .NumPad9 => 1073741921
  | .NumPad0 => 1073741922
  | .NumPadPeriod => 1073741923
  | .Application => 1073741925
  | .Power => 1073741926
  | .NumPadEquals => 1073741927
  | .F13 => 1073741928
  | .F14 => 1073741929
  | .F15 => 1073741930
  | .F16 => 1073741931
  | .F17 => 1073741932
  | .F18 => 1073741933
  | .F19 => 1073741934
  | .F20 => 1073741935
  | .F21 => 1073741936
  | .F22 => 1073741937
  | .F23 => 1073741938
  | .F24 => 1073741939
  | .Execute => 1073741940
  | .Help => 1073741941
  | .Menu => 1073741942
  | .Select => 1073741943
  | .Stop => 1073741944
  | .Again => 1073741945
  | .Undo => 1073741946
  | .Cut => 1073741947
  | .Copy => 1073741948
  | .Paste => 1073741949
  | .Find => 1073741950
  | .Mute => 1073741951
  | .VolumeUp => 1073741952
  | .VolumeDown => 1073741953
  | .NumPadComma => 1073741957
  | .NumPadEqualsAS400 => 1073741958
  | .AltErase => 1073741977
  | .Sysreq => 1073741978
  | .Cancel => 1073741979
  | .Clear => 1073741980
  | .Prior => 1073741981
  | .Return2 => 1073741982
  | .Separator => 1073741983
  | .Out => 1073741984
  | .Oper => 1073741985
  | .ClearAgain => 1073741986
  | .CrSel => 1073741987
  | .ExSel => 1073741988
  | .NumPad00 => 1073742000
  | .NumPad000 => 1073742001
  | .ThousandsSeparator => 1073742002
  | .DecimalSeparator => 1073742003
  | .CurrencyUnit => 1073742004
  | .CurrencySubUnit => 1073742005
  | .NumPadLeftParen => 1073742006
  | .NumPadRightParen => 1073742007
  | .NumPadLeftBrace => 1073742008
  | .NumPadRightBrace => 1073742009
  | .NumPadTab => 1073742010
  | .NumPadBackspace => 1073742011
  | .NumPadA => 1073742012
  | .NumPadB => 1073742013
  | .NumPadC => 1073742014
  | .NumPadD => 1073742015
  | .NumPadE => 1073742016
  | .NumPadF => 1073742017
  | .NumPadXor => 1073742018
  | .NumPadPower => 1073742019
  | .NumPadPercent => 1073742020
  | .NumPadLess => 1073742021
  | .NumPadGreater => 1073742022
  | .NumPadAmpersand => 1073742023
  | .NumPadDblAmpersand => 1073742024
  | .NumPadVerticalBar => 1073742025
  | .NumPadDblVerticalBar => 1073742026
  | .NumPadColon => 1073742027
  | .NumPadHash => 1073742028
  | .NumPadSpace => 1073742029
  | .NumPadAt => 1073742030
  | .NumPadExclam => 1073742031
  | .NumPadMemStore => 1073742032
  | .NumPadMemRecall => 1073742033
  | .NumPadMemClear => 1073742034
  | .NumPadMemAdd => 1073742035
  | .NumPadMemSubtract => 1073742036
  | .NumPadMemMultiply => 1073742037
  | .NumPadMemDivide => 1073742038
  | .NumPadPlusMinus => 1073742039
  | .NumPadClear => 1073742040
  | .NumPadClearEntry => 1073742041
  | .NumPadBinary => 1073742042
  | .NumPadOctal => 1073742043
  | .NumPadDecimal => 1073742044
  | .NumPadHexadecimal => 1073742045
  | .LCtrl => 1073742048
  | .LShift => 1073742049
  | .LAlt => 1073742050
  | .LGui => 1073742051
  | .RCtrl => 1073742052
  | .RShift => 1073742053
  | .RAlt => 1073742054
  | .RGui => 1073742055
  | .Mode => 1073742081
  | .AudioNext => 1073742082
  | .AudioPrev => 1073742083
  | .AudioStop => 1073742084
  | .AudioPlay => 1073742085
  | .AudioMute => 1073742086
  | .MediaSelect => 1073742087
  | .Www => 1073742088
  | .Mail => 1073742089
  | .Calculator => 1073742090
  | .Computer => 1073742091
  | .AcSearch => 1073742092
  | .AcHome => 1073742093
  | .AcBack => 1073742094
  | .AcForward => 1073742095
  | .AcStop => 1073742096
  | .AcRefresh => 1073742097
  | .AcBookmarks => 1073742098
  | .BrightnessDown => 1073742099
  | .BrightnessUp => 1073742100
  | .DisplaySwitch => 1073742101
  | .KbdIllumToggle => 1073742102
  | .KbdIllumDown => 1073742103
  | .KbdIllumUp => 1073742104
  | .Eject => 1073742105
  | .Sleep => 1073742106

/-- The fixed (code, Key) pairs of the FromPrimitive::from_u64 match for Key
(src/keyboard.rs lines 392-628), one pair per match arm, in source order. -/
def Key.table : List (Nat × Key) :=
  [(0, Key.Unknown),
   (8, Key.Backspace),
   (9, Key.Tab),
   (13, Key.Return),
   (27, Key.Escape),
   (32, Key.Space),
   (33, Key.Exclaim),
   (34, Key.Quotedbl),
   (35, Key.Hash),
   (36, Key.Dollar),
   (37, Key.Percent),
   (38, Key.Ampersand),
   (39, Key.Quote),
   (40, Key.LeftParen),
   (41, Key.RightParen),
   (42, Key.Asterisk),
   (43, Key.Plus),
   (44, Key.Comma),
   (45, Key.Minus),
   (46, Key.Period),
   (47, Key.Slash),
   (48, Key.D0),
   (49, Key.D1),
   (50, Key.D2),
   (51, Key.D3),
   (52, Key.D4),
   (53, Key.D5),
   (54, Key.D6),
   (55, Key.D7),
   (56, Key.D8),
   (57, Key.D9),
   (58, Key.Colon),
   (59, Key.Semicolon),
   (60, Key.Less),
   (61, Key.Equals),
   (62, Key.Greater),
   (63, Key.Question),
   (64, Key.At),
   (91, Key.LeftBracket),
   (92, Key.Backslash),
   (93, Key.RightBracket),
   (94, Key.Caret),
   (95, Key.Underscore),
   (96, Key.Backquote),
   (97, Key.A),
   (98, Key.B),
   (99, Key.C),
   (100, Key.D),
   (101, Key.E),
   (102, Key.F),
   (103, Key.G),
   (104, Key.H),
   (105, Key.I),
   (106, Key.J),
   (107, Key.K),
   (108, Key.L),
   (109, Key.M),
   (110, Key.N),
   (111, Key.O),
   (112, Key.P),
   (113, Key.Q),
   (114, Key.R),
   (115, Key.S),
   (116, Key.T),
   (117, Key.U),
   (118, Key.V),
   (119, Key.W),
   (120, Key.X),
   (121, Key.Y),
   (122, Key.Z),
   (127, Key.Delete),
   (1073741881, Key.CapsLock),
   (1073741882, Key.F1),
   (1073741883, Key.F2),
   (1073741884, Key.F3),
   (1073741885, Key.F4),
   (1073741886, Key.F5),
   (1073741887, Key.F6),
   (1073741888, Key.F7),
   (1073741889, Key.F8),
   (1073741890, Key.F9),
   (1073741891, Key.F10),
   (1073741892, Key.F11),
   (1073741893, Key.F12),
   (1073741894, Key.PrintScreen),
   (1073741895, Key.ScrollLock),
   (1073741896, Key.Pause),
   (1073741897, Key.Insert),
   (1073741898, Key.Home),
   (1073741899, Key.PageUp),
   (1073741901, Key.End),
   (1073741902, Key.PageDown),
   (1073741903, Key.Right),
   (1073741904, Key.Left),
   (1073741905, Key.Down),
   (1073741906, Key.Up),
   (1073741907, Key.NumLockClear),
   (1073741908, Key.NumPadDivide),
   (1073741909, Key.NumPadMultiply),
   (1073741910, Key.NumPadMinus),
   (1073741911, Key.NumPadPlus),
   (1073741912, Key.NumPadEnter),
   (1073741913, Key.NumPad1),
   (1073741914, Key.NumPad2),
   (1073741915, Key.NumPad3),
   (1073741916, Key.NumPad4),
   (1073741917, Key.NumPad5),
   (1073741918, Key.NumPad6),
   (1073741919, Key.NumPad7),
   (1073741920, Key.NumPad8),
   (1073741921, Key.NumPad9),
   (1073741922, Key.NumPad0),
   (1073741923, Key.NumPadPeriod),
   (1073741925, Key.Application),
   (1073741926, Key.Power),
   (1073741927, Key.NumPadEquals),
   (1073741928, Key.F13),
   (1073741929, Key.F14),
   (1073741930, Key.F15),
   (1073741931, Key.F16),
   (1073741932, Key.F17),
   (1073741933, Key.F18),
   (1073741934, Key.F19),
   (1073741935, Key.F20),
   (1073741936, Key.F21),
   (1073741937, Key.F22),
   (1073741938, Key.F23),
   (1073741939, Key.F24),
   (1073741940, Key.Execute),
   (1073741941, Key.Help),
   (1073741942, Key.Menu),
   (1073741943, Key.Select),
   (1073741944, Key.Stop),
   (1073741945, Key.Again),
   (1073741946, Key.Undo),
   (1073741947, Key.Cut),
   (1073741948, Key.Copy),
   (1073741949, Key.Paste),
   (1073741950, Key.Find),
   (1073741951, Key.Mute),
   (1073741952, Key.VolumeUp),
   (1073741953, Key.VolumeDown),
   (1073741957, Key.NumPadComma),
   (1073741958, Key.NumPadEqualsAS400),
   (1073741977, Key.AltErase),
   (1073741978, Key.Sysreq),
   (1073741979, Key.Cancel),
   (1073741980, Key.Clear),
   (1073741981, Key.Prior),
   (1073741982, Key.Return2),
   (1073741983, Key.Separator),
   (1073741984, Key.Out),
   (1073741985, Key.Oper),
   (1073741986, Key.ClearAgain),
   (1073741987, Key.CrSel),
   (1073741988, Key.ExSel),
   (1073742000, Key.NumPad00),
   (1073742001, Key.NumPad000),
   (1073742002, Key.ThousandsSeparator),
   (1073742003, Key.DecimalSeparator),
   (1073742004, Key.CurrencyUnit),
   (1073742005, Key.CurrencySubUnit),
   (1073742006, Key.NumPadLeftParen),
   (1073742007, Key.NumPadRightParen),
   (1073742008, Key.NumPadLeftBrace),
   (1073742009, Key.NumPadRightBrace),
   (1073742010, Key.NumPadTab),
   (1073742011, Key.NumPadBackspace),
   (1073742012, Key.NumPadA),
   (1073742013, Key.NumPadB),
   (1073742014, Key.NumPadC),
   (1073742015, Key.NumPadD),
   (1073742016, Key.NumPadE),
   (1073742017, Key.NumPadF),
   (1073742018, Key.NumPadXor),
   (1073742019, Key.NumPadPower),
   (1073742020, Key.NumPadPercent),
   (1073742021, Key.NumPadLess),
   (1073742022, Key.NumPadGreater),
   (1073742023, Key.NumPadAmpersand),
   (1073742024, Key.NumPadDblAmpersand),
   (1073742025, Key.NumPadVerticalBar),
   (1073742026, Key.NumPadDblVerticalBar),
   (1073742027, Key.NumPadColon),
   (1073742028, Key.NumPadHash),
   (1073742029, Key.NumPadSpace),
   (1073742030, Key.NumPadAt),
   (1073742031, Key.NumPadExclam),
   (1073742032, Key.NumPadMemStore),
   (1073742033, Key.NumPadMemRecall),
   (1073742034, Key.NumPadMemClear),
   (1073742035, Key.NumPadMemAdd),
   (1073742036, Key.NumPadMemSubtract),
   (1073742037, Key.NumPadMemMultiply),
   (1073742038, Key.NumPadMemDivide),
   (1073742039, Key.NumPadPlusMinus),
   (1073742040, Key.NumPadClear),
   (1073742041, Key.NumPadClearEntry),
   (1073742042, Key.NumPadBinary),
   (1073742043, Key.NumPadOctal),
   (1073742044, Key.NumPadDecimal),
   (1073742045, Key.NumPadHexadecimal),
   (1073742048, Key.LCtrl),
   (1073742049, Key.LShift),
   (1073742050, Key.LAlt),
   (1073742051, Key.LGui),
   (1073742052, Key.RCtrl),
   (1073742053, Key.RShift),
   (1073742054, Key.RAlt),
   (1073742055, Key.RGui),
   (1073742081, Key.Mode),
   (1073742082, Key.AudioNext),
   (1073742083, Key.AudioPrev),
   (1073742084, Key.AudioStop),
   (1073742085, Key.AudioPlay),
   (1073742086, Key.AudioMute),
   (1073742087, Key.MediaSelect),
   (1073742088, Key.Www),
   (1073742089, Key.Mail),
   (1073742090, Key.Calculator),
   (1073742091, Key.Computer),
   (1073742092, Key.AcSearch),
   (1073742093, Key.AcHome),
   (1073742094, Key.AcBack),
   (1073742095, Key.AcForward),
   (1073742096, Key.AcStop),
   (1073742097, Key.AcRefresh),
   (1073742098, Key.AcBookmarks),
   (1073742099, Key.BrightnessDown),
   (1073742100, Key.BrightnessUp),
   (1073742101, Key.DisplaySwitch),
   (1073742102, Key.KbdIllumToggle),
   (1073742103, Key.KbdIllumDown),
   (1073742104, Key.KbdIllumUp),
   (1073742105, Key.Eject),
   (1073742106, Key.Sleep)]

/-- FromPrimitive::from_u64 for Key (src/keyboard.rs lines 390-632): a match of n
against 236 distinct integer literals with the wildcard arm `_ => Some(Unknown)`,
embedded as first-match lookup of n among the literal (code, Key) arms of Key.table
(the arms are mutually exclusive, so first-match lookup is exactly the match). -/
def Key.from_u64 (n : Nat) : Option Key :=
  match Key.table.find? (fun p => p.1 == n) with
  | some p => some p.2
  | none => some Key.Unknown

/-- FromPrimitive::from_i64 for Key (src/keyboard.rs lines 634-637):
`FromPrimitive::from_u64(n as u64)`; the wrapping i64-to-u64 cast is reduction
modulo 2^64 = 18446744073709551616. -/
def Key.from_i64 (n : Int) : Option Key :=
  Key.from_u64 (n % 18446744073709551616).toNat

/-- Whether a u64 value appears as a code in the fixed (code, Key) table. -/
def Key.in_table (n : Nat) : Bool :=
  Key.table.any fun p => p.1 == n

/-- PartialEq for Key (src/keyboard.rs lines 336-340): `(*self as i32) == (*other as i32)`. -/
def Key.eq (a b : Key) : Bool :=
  a.code == b.code

/-- Ord for Key (src/keyboard.rs lines 344-356): comparison of the two `as i32` codes. -/
def Key.cmp (a b : Key) : Ordering :=
  compare a.code b.code

/-- Hash for Key (src/keyboard.rs lines 366-371): `self.code().hash(state)`; the only
data fed to the hasher state is the code, so the hash of a Key under any hasher f is
f applied to its code. -/
def Key.hash (f : Int → Nat) (k : Key) : Nat :=
  f k.code

/-- Timestamp (src/lib.rs line 92): a newtype over a u64 nanosecond count. -/
structure Timestamp where
  val : Nat
deriving DecidableEq, Repr

/-- DeviceID (src/lib.rs line 131): a newtype over a String. -/
structure DeviceID where
  val : String
deriving DecidableEq, Repr

/-- ElementID (src/lib.rs line 138): a newtype over a u64. -/
structure ElementID where
  val : Nat
deriving DecidableEq, Repr

/-- KeyboardEvent (src/keyboard.rs lines 19-49): KeyPress and KeyRelease, each carrying
timestamp, device, element and an optional Key. -/
inductive KeyboardEvent where
  | KeyPress (timestamp : Timestamp) (device : DeviceID) (element : ElementID)
      (key : Option Key)
  | KeyRelease (timestamp : Timestamp) (device : DeviceID) (element : ElementID)
      (key : Option Key)
deriving DecidableEq, Repr

/-- Event::get_element_value for KeyboardEvent (src/keyboard.rs lines 73-78):
1.0 for KeyPress, 0.0 for KeyRelease. -/
def KeyboardEvent.get_element_value : KeyboardEvent → ℚ
  | .KeyPress _ _ _ _ => 1
  | .KeyRelease _ _ _ _ => 0

/-- ToKeyboardEvent for KeyboardEvent (src/keyboard.rs lines 87-91): `Some(self.clone())`;
cloning an immutable value type is the value itself. -/
def KeyboardEvent.to_keyboard_event (e : KeyboardEvent) : Option KeyboardEvent :=
  some e

/-- Mouse Button (src/mouse.rs lines 142-153). -/
inductive Button where
  | Left
  | Right
  | Middle
  | X1
  | X2
deriving DecidableEq, Repr

/-- MouseEvent (src/mouse.rs lines 16-86): press, release, move and scroll variants;
the f64 coordinate and delta payload fields are modelled as rationals. -/
inductive MouseEvent where
  | MousePress (timestamp : Timestamp) (device : DeviceID) (element : ElementID)
      (button : Option Button)
  | MouseRelease (timestamp : Timestamp) (device : DeviceID) (element : ElementID)
      (button : Option Button)
  | MouseMove (timestamp : Timestamp) (device : DeviceID) (element : ElementID)
      (x y draw_x draw_y delta_x delta_y draw_delta_x draw_delta_y : ℚ)
  | MouseScroll (timestamp : Timestamp) (device : DeviceID) (element : ElementID)
      (x y : ℚ)
deriving DecidableEq, Repr

/-- Event::get_element_value for MouseEvent (src/mouse.rs lines 116-125): 1.0 for press,
0.0 for release; for MouseMove the non-zero of delta_x/delta_y preferring delta_x; for
MouseScroll the non-zero of x/y preferring x (the `as f32` casts are the identity in
the rational model). -/
def MouseEvent.get_element_value : MouseEvent → ℚ
  | .MousePress _ _ _ _ => 1
  | .MouseRelease _ _ _ _ => 0
  | .MouseMove _ _ _ _ _ _ _ dx dy _ _ => if dx != 0 then dx else dy
  | .MouseScroll _ _ _ x y => if x != 0 then x else y

/-- ToMouseEvent for MouseEvent (src/mouse.rs lines 134-138): `Some(self.clone())`. -/
def MouseEvent.to_mouse_event (e : MouseEvent) : Option MouseEvent :=
  some e

/-- Modelled from the spec: the repository defines no `impl ToKeyboardEvent for
MouseEvent`; spec section 4.3 states that the narrowing traits "return `None` when the
event does not originate from that device family", so a MouseEvent value narrowed to
the keyboard family yields None. -/
def MouseEvent.to_keyboard_event (_ : MouseEvent) : Option KeyboardEvent :=
  none

/-- Evaluating from_u64 at the code of each variant returns that variant: the table
arm whose literal is that code is the first (and only) arm that matches. -/
theorem from_u64_code (k : Key) : Key.from_u64 k.code.toNat = some k := by
  cases k <;> rfl

/-- The discriminants of Key are pairwise distinct, so Key.code is injective. -/
theorem code_injective {a b : Key} (h : a.code = b.code) : a = b := by
  have ha := from_u64_code a
  have hb := from_u64_code b
  rw [h] at ha
  rw [ha] at hb
  exact Option.some.inj hb

/-- from_u64 never returns none: both the table arms and the wildcard return some. -/
theorem from_u64_isSome (n : Nat) : (Key.from_u64 n).isSome = true := by
  unfold Key.from_u64
  split <;> rfl

/-- On an input that matches no table arm, from_u64 falls through to the wildcard. -/
theorem from_u64_not_in_table {n : Nat} (h : Key.in_table n = false) :
    Key.from_u64 n = some Key.Unknown := by
  have hfind : Key.table.find? (fun p => p.1 == n) = none := by
    rw [List.find?_eq_none]
    intro p hp hpn
    have ht : Key.in_table n = true := by
      unfold Key.in_table
      rw [List.any_eq_true]
      exact ⟨p, hp, hpn⟩
    simp [ht] at h
  unfold Key.from_u64
  rw [hfind]

/-- Every code in the table is at most 1073742106 (the Sleep code), so any larger
input falls through to the wildcard. -/
theorem from_u64_big {n : Nat} (h : 1073742106 < n) :
    Key.from_u64 n = some Key.Unknown := by
  have hall : ∀ p ∈ Key.table, p.1 ≤ 1073742106 := by decide
  have hfind : Key.table.find? (fun p => p.1 == n) = none := by
    rw [List.find?_eq_none]
    intro p hp hpn
    have h1 : p.1 = n := by exact_mod_cast beq_iff_eq.mp hpn
    have h2 := hall p hp
    omega
  unfold Key.from_u64
  rw [hfind]

/-- Claim C1: for every variant k of the Key enumeration, converting k to its numeric
code via code() and mapping that code back through the code-to-key table
(FromPrimitive::from_u64) yields k again. -/
theorem claim_c1_key_code_roundtrip : ∀ k : Key, Key.from_u64 k.code.toNat = some k :=
  from_u64_code

/-- Claim C2: the code-to-key mapping is total with a sentinel fallback: for every u64
(and i64) code value that does not appear in the fixed (code, Key) table, from_u64 and
from_i64 return Some Unknown — never None, never any other variant. -/
theorem claim_c2_unknown_fallback :
    (∀ n : Nat, (Key.from_u64 n).isSome = true) ∧
    (∀ n : Nat, Key.in_table n = false → Key.from_u64 n = some Key.Unknown) ∧
    (∀ i : Int, Key.in_table ((i % 18446744073709551616).toNat) = false →
      Key.from_i64 i = some Key.Unknown) :=
  ⟨from_u64_isSome, fun _ h => from_u64_not_in_table h, fun _ h => from_u64_not_in_table h⟩

/-- Claim C2 witness: code 1 is not in the table and maps to Unknown, through both
from_u64 and from_i64. -/
theorem claim_c2_witness :
    Key.in_table 1 = false ∧ Key.from_u64 1 = some Key.Unknown ∧
      Key.from_i64 1 = some Key.Unknown :=
  ⟨by decide, claim_c2_unknown_fallback.2.1 1 (by decide),
   claim_c2_unknown_fallback.2.2 1 (by decide)⟩

/-- Claim C3: for MouseMove, get_element_value returns delta_x whenever delta_x is
non-zero and otherwise delta_y; for MouseScroll likewise x, else y; in particular the
three concrete examples of the spec. -/
theorem claim_c3_mouse_element_value :
    (∀ (t : Timestamp) (d : DeviceID) (e : ElementID) (x y dx dy ddx ddy wx wy : ℚ),
      (ddx ≠ 0 →
        (MouseEvent.MouseMove t d e x y dx dy ddx ddy wx wy).get_element_value = ddx) ∧
      (ddx = 0 →
        (MouseEvent.MouseMove t d e x y dx dy ddx ddy wx wy).get_element_value = ddy)) ∧
    (∀ (t : Timestamp) (d : DeviceID) (e : ElementID) (x y : ℚ),
      (x ≠ 0 → (MouseEvent.MouseScroll t d e x y).get_element_value = x) ∧
      (x = 0 → (MouseEvent.MouseScroll t d e x y).get_element_value = y)) ∧
    (MouseEvent.MouseMove ⟨0⟩ ⟨""⟩ ⟨0⟩ 0 0 0 0 3 0 0 0).get_element_value = 3 ∧
    (MouseEvent.MouseMove ⟨0⟩ ⟨""⟩ ⟨0⟩ 0 0 0 0 0 (-2) 0 0).get_element_value = -2 ∧
    (MouseEvent.MouseScroll ⟨0⟩ ⟨""⟩ ⟨0⟩ 0 5).get_element_value = 5 := by
  refine ⟨?_, ?_, ?_, ?_, ?_⟩
  · intro t d e x y dx dy ddx ddy wx wy
    constructor
    · intro h; simp [MouseEvent.get_element_value, h]
    · intro h; simp [MouseEvent.get_element_value, h]
  · intro t d e x y
    constructor
    · intro h; simp [MouseEvent.get_element_value, h]
    · intro h; simp [MouseEvent.get_element_value, h]
  · norm_num [MouseEvent.get_element_value]
  · norm_num [MouseEvent.get_element_value]
  · norm_num [MouseEvent.get_element_value]

/-- Claim C3 witness: the selection law applied at concrete inputs, discharging both a
non-zero and a zero hypothesis. -/
theorem claim_c3_witness :
    (MouseEvent.MouseMove ⟨0⟩ ⟨""⟩ ⟨0⟩ 0 0 0 0 3 7 0 0).get_element_value = 3 ∧
    (MouseEvent.MouseScroll ⟨0⟩ ⟨""⟩ ⟨0⟩ 0 9).get_element_value = 9 :=
  ⟨(claim_c3_mouse_element_value.1 ⟨0⟩ ⟨""⟩ ⟨0⟩ 0 0 0 0 3 7 0 0).1 (by norm_num),
   (claim_c3_mouse_element_value.2.1 ⟨0⟩ ⟨""⟩ ⟨0⟩ 0 9).2 rfl⟩

/-- Claim C4: equality, ordering and hashing of Key are all defined purely by the
numeric code: eq holds iff the codes are equal (equivalently, iff the keys are the
same variant, codes being injective), cmp is integer comparison of the codes (so
Backspace is below Tab, 8 below 9), and equal codes hash identically under any
hasher. -/
theorem claim_c4_eq_ord_hash_by_code :
    (∀ a b : Key, Key.eq a b = true ↔ a.code = b.code) ∧
    (∀ a b : Key, Key.eq a b = true ↔ a = b) ∧
    (∀ a b : Key, Key.cmp a b = compare a.code b.code) ∧
    (∀ (f : Int → Nat) (a b : Key), a.code = b.code → Key.hash f a = Key.hash f b) ∧
    Key.cmp Key.Backspace Key.Tab = Ordering.lt := by
  refine ⟨?_, ?_, ?_, ?_, ?_⟩
  · intro a b
    unfold Key.eq
    exact beq_iff_eq
  · intro a b
    unfold Key.eq
    constructor
    · intro h; exact code_injective (beq_iff_eq.mp h)
    · rintro rfl; exact beq_self_eq_true _
  · intro a b; rfl
  · intro f a b h
    unfold Key.hash
    rw [h]
  · decide

/-- Claim C4 witness: the equality law and the hash law applied at concrete keys. -/
theorem claim_c4_witness :
    Key.eq Key.A Key.A = true ∧
      Key.hash Int.toNat Key.Backspace = Key.hash Int.toNat Key.Backspace :=
  ⟨(claim_c4_eq_ord_hash_by_code.2.1 Key.A Key.A).mpr rfl,
   claim_c4_eq_ord_hash_by_code.2.2.2.1 Int.toNat Key.Backspace Key.Backspace rfl⟩

/-- Claim C5: for every KeyboardEvent, get_element_value returns exactly 1 for a
KeyPress and exactly 0 for a KeyRelease, regardless of the timestamp, device, element
and key fields. -/
theorem claim_c5_keyboard_element_value :
    ∀ (t : Timestamp) (d : DeviceID) (e : ElementID) (k : Option Key),
      (KeyboardEvent.KeyPress t d e k).get_element_value = 1 ∧
      (KeyboardEvent.KeyRelease t d e k).get_element_value = 0 :=
  fun _ _ _ _ => ⟨rfl, rfl⟩

/-- Claim C6: the identity narrowing always succeeds and is a value copy: every
KeyboardEvent narrows to some of itself, and every MouseEvent likewise. -/
theorem claim_c6_identity_narrowing :
    (∀ e : KeyboardEvent, e.to_keyboard_event = some e) ∧
    (∀ m : MouseEvent, m.to_mouse_event = some m) :=
  ⟨fun _ => rfl, fun _ => rfl⟩

/-- Claim C7: cross-family narrowing returns absence, not an error: every MouseEvent
narrowed to the keyboard family yields none (to_keyboard_event for MouseEvent is
modelled from the spec; the repository declares no such impl). -/
theorem claim_c7_cross_family_none :
    ∀ m : MouseEvent, m.to_keyboard_event = none :=
  fun _ => rfl

/-- Claim C8: the reverse round-trip fails for some code: 1 is absent from the table,
so from_u64 maps it to Unknown whose code is 0, not 1. -/
theorem claim_c8_reverse_roundtrip_fails :
    Key.from_u64 1 = some Key.Unknown ∧ Key.Unknown.code ≠ 1 ∧
      ∃ c : Nat, (Key.from_u64 c).map (fun k => k.code.toNat) ≠ some c :=
  ⟨by decide, by decide, 1, by decide⟩

/-- Claim C9: the fixed code assignments of the anchor keys: Unknown has code 0, A has
code 97, F1 has code 1073741882, and Unknown is the variant the table binds to 0. -/
theorem claim_c9_anchor_codes :
    Key.Unknown.code = 0 ∧ Key.A.code = 97 ∧ Key.F1.code = 1073741882 ∧
      Key.from_u64 0 = some Key.Unknown :=
  ⟨rfl, rfl, rfl, by decide⟩

/-- Claim C10: for every negative i64 value n, from_i64 n returns some Unknown: the
wrapping cast to u64 lands in [2^63, 2^64), beyond every table code. -/
theorem claim_c10_negative_i64_unknown :
    ∀ n : Int, -9223372036854775808 ≤ n → n < 0 → Key.from_i64 n = some Key.Unknown := by
  intro n h1 h2
  unfold Key.from_i64
  exact from_u64_big (by omega)

/-- Claim C10 witness: the negative-input law applied at -1. -/
theorem claim_c10_witness : Key.from_i64 (-1) = some Key.Unknown :=
  claim_c10_negative_i64_unknown (-1) (by norm_num) (by norm_num)
